import Mathlib

/-! Shallow embedding of the editor MCP utility layer
    (Source/GenerativeAISupportEditor/Private/MCP/GenActorUtils.cpp).
    The host-engine state is modelled explicitly and every function of the
    source file becomes a pure state-passing function.  Host-engine calls
    whose success depends on the engine (spawning, package creation, asset
    creation, saving, expression wiring) are driven by boolean oracle
    fields of the host state, so every control-flow path of the source is
    representable.  Each mutating host-API call additionally appends an
    event to a trace, so ordering properties (mutate-then-undo) are
    observable. -/

abbrev FVector := Int × Int × Int
abbrev FRotator := Int × Int × Int
abbrev FLinearColor := Int × Int × Int × Int

structure StaticMeshComp where
  mesh : Option String
  materials : List (Option String)
deriving Repr, DecidableEq

structure AActor where
  label : String
  objectName : String
  location : FVector
  rotation : FRotator
  scale : FVector
  meshComp : Option StaticMeshComp
deriving Repr, DecidableEq

structure WorldState where
  actors : List AActor
  hasCurrentLevel : Bool
  defaultGameMode : Option String
  settingsDirty : Bool
deriving Repr, DecidableEq

structure UMaterial where
  matName : String
  exprColor : Option FLinearColor
  baseColorConnected : Bool
  saved : Bool
deriving Repr, DecidableEq

structure UBlueprint where
  bpPath : String
  generatedClass : Option String
  isPawnClass : Bool
  defaultPawnClass : Option String
  modifiedFlag : Bool
  structurallyModified : Bool
deriving Repr, DecidableEq

structure UClass where
  clsName : String
  isGameModeBase : Bool
  isActorClass : Bool
deriving Repr, DecidableEq

inductive HostEvent where
  | spawnActor (idx : Nat)
  | destroyActor (idx : Nat)
  | setStaticMesh (idx : Nat) (path : String)
  | setScale (idx : Nat) (v : FVector)
  | setLocation (idx : Nat) (v : FVector)
  | setRotation (idx : Nat) (v : FRotator)
  | setLabel (idx : Nat) (l : String)
  | setSlotMaterial (idx slot : Nat) (mat : String)
  | createPackage (path : String)
  | newMaterial (path : String)
  | createExpression (path : String)
  | setExprConstant (path : String) (c : FLinearColor)
  | connectBaseColor (path : String)
  | recompile (path : String)
  | markDirty (path : String)
  | savePackage (path : String)
  | assetCreatedNotify (path : String)
  | createAsset (path : String)
  | setDefaultPawnClass (bp cls : String)
  | setWorldDefaultGameMode (cls : String)
  | modifyBlueprint (bp : String)
  | markStructurallyModified (bp : String)
deriving Repr, DecidableEq

/-- The full host-engine state visible to the module.  The module itself
    owns no state: the C++ file declares only static member functions and
    no static data members or file-scope globals. -/
structure Host where
  editorWorld : Option WorldState
  meshes : List (String × Nat)
  materials : List (String × UMaterial)
  packages : List String
  blueprints : List UBlueprint
  classes : List UClass
  nextId : Nat
  exprCount : Nat
  spawnSucceeds : Bool
  spawnedCompValid : Bool
  createPackageSucceeds : Bool
  newMaterialSucceeds : Bool
  createExpressionSucceeds : Bool
  connectSucceeds : Bool
  savePackageSucceeds : Bool
  createAssetSucceeds : Bool
  generatedClassOk : Bool
  cdoCastSucceeds : Bool
  gEditorValid : Bool
  events : List HostEvent
  log : List String
deriving Repr, DecidableEq

def Host.logE (h : Host) (s : String) : Host := { h with log := h.log ++ [s] }

def Host.emit (h : Host) (e : HostEvent) : Host := { h with events := h.events ++ [e] }

/-- Modify the element at an index of a list, identity elsewhere. -/
def modifyAt (f : α → α) : List α → Nat → List α
  | [], _ => []
  | a :: rest, 0 => f a :: rest
  | a :: rest, Nat.succ n => a :: modifyAt f rest n

/-- First index satisfying a predicate (the actor-iterator loop of the source). -/
def firstIdx (p : α → Bool) : List α → Option Nat
  | [] => none
  | a :: rest => if p a then some 0 else (firstIdx p rest).map (· + 1)

def Host.updActor (h : Host) (i : Nat) (f : AActor → AActor) : Host :=
  match h.editorWorld with
  | none => h
  | some w => { h with editorWorld := some { w with actors := modifyAt f w.actors i } }

def actorAt (h : Host) (i : Nat) : Option AActor :=
  h.editorWorld.bind fun w => w.actors[i]?

def setLocationAt (h : Host) (i : Nat) (v : FVector) : Host :=
  (h.updActor i fun a => { a with location := v }).emit (.setLocation i v)

def setRotationAt (h : Host) (i : Nat) (v : FRotator) : Host :=
  (h.updActor i fun a => { a with rotation := v }).emit (.setRotation i v)

def setScaleAt (h : Host) (i : Nat) (v : FVector) : Host :=
  (h.updActor i fun a => { a with scale := v }).emit (.setScale i v)

def setLabelAt (h : Host) (i : Nat) (l : String) : Host :=
  (h.updActor i fun a => { a with label := l }).emit (.setLabel i l)

def setMeshAt (h : Host) (i : Nat) (path : String) (slots : Nat) : Host :=
  (h.updActor i fun a =>
    { a with meshComp := a.meshComp.map fun c =>
        { c with mesh := some path, materials := List.replicate slots none } }).emit
    (.setStaticMesh i path)

/-- The pure actor transform performed by one SetMaterial(slot, mat) call. -/
def setSlotFn (slot : Nat) (mat : String) (a : AActor) : AActor :=
  { a with meshComp := a.meshComp.map fun c =>
      { c with materials := c.materials.set slot (some mat) } }

def setSlotMatAt (h : Host) (i slot : Nat) (mat : String) : Host :=
  (h.updActor i (setSlotFn slot mat)).emit (.setSlotMaterial i slot mat)

/-- LoadObject of a static mesh: the slot count when the path loads. -/
def loadMesh (h : Host) (p : String) : Option Nat :=
  (h.meshes.find? (fun e => e.1 = p)).map (fun e => e.2)

/-- LoadObject of a material object by full object path. -/
def lookupMat (h : Host) (p : String) : Option UMaterial :=
  (h.materials.find? (fun e => e.1 = p)).map (fun e => e.2)

def updMat (h : Host) (p : String) (f : UMaterial → UMaterial) : Host :=
  { h with materials := h.materials.map fun e => if e.1 = p then (e.1, f e.2) else e }

def updBP (h : Host) (p : String) (f : UBlueprint → UBlueprint) : Host :=
  { h with blueprints := h.blueprints.map fun b => if b.bpPath = p then f b else b }

/-- SpawnActor of an AStaticMeshActor: appends a fresh actor to the world. -/
def spawnSMActor (h : Host) (w : WorldState) (Location : FVector) (Rotation : FRotator) :
    Nat × Host :=
  let comp : Option StaticMeshComp :=
    if h.spawnedCompValid then some { mesh := none, materials := [] } else none
  let nm := "StaticMeshActor_" ++ toString h.nextId
  let a : AActor := { label := nm, objectName := nm, location := Location,
                      rotation := Rotation, scale := (1, 1, 1), meshComp := comp }
  let idx := w.actors.length
  (idx,
   ({ h with editorWorld := some { w with actors := w.actors ++ [a] },
             nextId := h.nextId + 1 }).emit (.spawnActor idx))

/-- SpawnActor of a plain actor of a resolved class. -/
def spawnGenericActor (h : Host) (w : WorldState) (Location : FVector) (Rotation : FRotator) :
    Nat × Host :=
  let nm := "Actor_" ++ toString h.nextId
  let a : AActor := { label := nm, objectName := nm, location := Location,
                      rotation := Rotation, scale := (1, 1, 1), meshComp := none }
  let idx := w.actors.length
  (idx,
   ({ h with editorWorld := some { w with actors := w.actors ++ [a] },
             nextId := h.nextId + 1 }).emit (.spawnActor idx))

def destroyActorAt (h : Host) (i : Nat) : Host :=
  match h.editorWorld with
  | none => h
  | some w =>
      ({ h with editorWorld := some { w with actors := w.actors.eraseIdx i } }).emit
        (.destroyActor i)

def UGenActorUtils.SpawnBasicShape (ShapeName : String) (Location : FVector)
    (Rotation : FRotator) (Scale : FVector) (ActorLabel : String) (h : Host) :
    Option Nat × Host :=
  match h.editorWorld with
  | none => (none, h.logE "Failed to get editor world")
  | some w =>
    if h.spawnSucceeds = false then
      (none, h.logE "Failed to spawn StaticMeshActor")
    else
      let sp := spawnSMActor h w Location Rotation
      let idx := sp.1
      let h1 := sp.2
      let MeshPath := "/Engine/BasicShapes/" ++ ShapeName ++ "." ++ ShapeName
      match loadMesh h1 MeshPath with
      | none =>
          (none, destroyActorAt (h1.logE ("Failed to load static mesh at path: " ++ MeshPath)) idx)
      | some slots =>
          let h2 := setMeshAt h1 idx MeshPath slots
          let h3 := setScaleAt h2 idx Scale
          let h4 := if ActorLabel = "" then h3 else setLabelAt h3 idx ActorLabel
          (some idx, h4)

def UGenActorUtils.SpawnStaticMeshActor (MeshPath : String) (Location : FVector)
    (Rotation : FRotator) (Scale : FVector) (ActorLabel : String) (h : Host) :
    Option Nat × Host :=
  match loadMesh h MeshPath with
  | none => (none, h.logE ("Could not load static mesh from: " ++ MeshPath))
  | some slots =>
    match h.editorWorld with
    | none => (none, h.logE "Failed to get editor world")
    | some w =>
      if h.spawnSucceeds = false then
        (none, h.logE "Failed to spawn StaticMeshActor")
      else
        let sp := spawnSMActor h w Location Rotation
        let idx := sp.1
        let h1 := sp.2
        match (actorAt h1 idx).bind (fun a => a.meshComp) with
        | some _ =>
            let h2 := setMeshAt h1 idx MeshPath slots
            let h3 := setScaleAt h2 idx Scale
            let h4 := if ActorLabel = "" then h3 else setLabelAt h3 idx ActorLabel
            (some idx,
             h4.logE ("Spawned StaticMeshActor with mesh " ++ MeshPath ++ " labeled " ++ ActorLabel))
        | none =>
            (none, destroyActorAt (h1.logE "No StaticMeshComponent found on spawned actor") idx)

def spawnFromResolvedClass (ActorClassName : String) (Location : FVector)
    (Rotation : FRotator) (Scale : FVector) (ActorLabel : String) (h : Host) :
    Option Nat × Host :=
  match h.editorWorld with
  | none => (none, h.logE "Failed to get editor world")
  | some w =>
    if h.spawnSucceeds = false then
      (none, h.logE ("Failed to spawn actor of class: " ++ ActorClassName))
    else
      let sp := spawnGenericActor h w Location Rotation
      let idx := sp.1
      let h1 := sp.2
      let h2 := setScaleAt h1 idx Scale
      let h3 := if ActorLabel = "" then h2 else setLabelAt h2 idx ActorLabel
      (some idx, h3)

def UGenActorUtils.SpawnActorFromClass (ActorClassName : String) (Location : FVector)
    (Rotation : FRotator) (Scale : FVector) (ActorLabel : String) (h : Host) :
    Option Nat × Host :=
  if ActorClassName.startsWith "/" then
    match (h.classes.find? (fun c => c.clsName = ActorClassName)).filter
        (fun c => c.isActorClass) with
    | none => (none, h.logE ("Could not load actor class from: " ++ ActorClassName))
    | some _ => spawnFromResolvedClass ActorClassName Location Rotation Scale ActorLabel h
  else
    match h.classes.find? (fun c => c.clsName = ActorClassName) with
    | none => (none, h.logE ("Could not find actor class: " ++ ActorClassName))
    | some _ => spawnFromResolvedClass ActorClassName Location Rotation Scale ActorLabel h

def UGenActorUtils.FindActorByName (ActorName : String) (h : Host) : Option Nat × Host :=
  match h.editorWorld with
  | none => (none, h.logE "Failed to get editor world")
  | some w =>
    match firstIdx (fun a => a.label = ActorName) w.actors with
    | some i => (some i, h)
    | none =>
      match firstIdx (fun a => a.objectName = ActorName) w.actors with
      | some i => (some i, h)
      | none => (none, h.logE ("Actor not found in the level: " ++ ActorName))

def pkgPathOf (MaterialName : String) : String := "/Game/Materials/" ++ MaterialName

def matPathOf (MaterialName : String) : String :=
  "/Game/Materials/" ++ MaterialName ++ "." ++ MaterialName

/-- The body of CreateMaterial past the existing-package fast path:
    CreatePackage, NewObject, expression creation and wiring, recompile,
    mark dirty, SavePackage.  Note that a failed property connection or a
    failed save only logs and the material is still returned. -/
def createMaterialNew (MaterialName : String) (Color : FLinearColor) (h : Host) :
    Option String × Host :=
  let FullPackagePath := pkgPathOf MaterialName
  let objPath := matPathOf MaterialName
  if h.createPackageSucceeds = false then
    (none, h.logE ("Failed to create package for material: " ++ MaterialName))
  else
    let h1 := ({ h with packages :=
        if FullPackagePath ∈ h.packages then h.packages
        else h.packages ++ [FullPackagePath] }).emit (.createPackage FullPackagePath)
    if h.newMaterialSucceeds = false then
      (none, h1.logE ("Failed to create material: " ++ MaterialName))
    else
      let newMat : UMaterial := { matName := MaterialName, exprColor := none,
                                  baseColorConnected := false, saved := false }
      let h2 := ({ h1 with materials := h1.materials ++ [(objPath, newMat)] }).emit
        (.newMaterial objPath)
      let h3 :=
        if h.createExpressionSucceeds then
          let ha := ({ h2 with exprCount := h2.exprCount + 1 }).emit (.createExpression objPath)
          let hb := (updMat ha objPath fun m => { m with exprColor := some Color }).emit
            (.setExprConstant objPath Color)
          if h.connectSucceeds then
            (updMat hb objPath fun m => { m with baseColorConnected := true }).emit
              (.connectBaseColor objPath)
          else hb.logE "Failed to connect material property"
        else h2
      let h4 := (h3.emit (.recompile objPath)).emit (.markDirty FullPackagePath)
      let h5 :=
        if h.savePackageSucceeds then
          ((((updMat h4 objPath fun m => { m with saved := true }).emit
              (.savePackage FullPackagePath)).emit
              (.assetCreatedNotify objPath)).logE
            ("Successfully created and saved material: " ++ MaterialName))
        else h4.logE ("Failed to save material: " ++ MaterialName)
      (some objPath, h5)

def UGenActorUtils.CreateMaterial (MaterialName : String) (Color : FLinearColor) (h : Host) :
    Option String × Host :=
  let FullPackagePath := pkgPathOf MaterialName
  let objPath := matPathOf MaterialName
  if FullPackagePath ∈ h.packages then
    let h1 := h.logE ("Material already exists, trying to load it: " ++ MaterialName)
    match lookupMat h1 objPath with
    | some _ => (some objPath, h1)
    | none => createMaterialNew MaterialName Color h1
  else createMaterialNew MaterialName Color h

def UGenActorUtils.SetActorMaterial (ActorName : String) (Material : Option String) (h : Host) :
    Bool × Host :=
  match Material with
  | none => (false, h.logE "Null material provided")
  | some mat =>
    match UGenActorUtils.FindActorByName ActorName h with
    | (none, h1) => (false, h1)
    | (some i, h1) =>
      match (actorAt h1 i).bind (fun a => a.meshComp) with
      | none => (false, h1.logE ("No static mesh component found on actor: " ++ ActorName))
      | some comp =>
        let MaterialCount := comp.materials.length
        let h2 := (List.range MaterialCount).foldl (fun acc j => setSlotMatAt acc i j mat) h1
        (true, h2.logE ("Set material for actor: " ++ ActorName))

def UGenActorUtils.SetActorMaterialByPath (ActorName MaterialPath : String) (h : Host) :
    Bool × Host :=
  match lookupMat h MaterialPath with
  | none => (false, h.logE ("Failed to load material at path: " ++ MaterialPath))
  | some _ => UGenActorUtils.SetActorMaterial ActorName (some MaterialPath) h

def UGenActorUtils.SetActorPosition (ActorName : String) (Position : FVector) (h : Host) :
    Bool × Host :=
  match UGenActorUtils.FindActorByName ActorName h with
  | (none, h1) => (false, h1)
  | (some i, h1) =>
      (true, (setLocationAt h1 i Position).logE ("Set position of actor: " ++ ActorName))

def UGenActorUtils.SetActorRotation (ActorName : String) (Rotation : FRotator) (h : Host) :
    Bool × Host :=
  match UGenActorUtils.FindActorByName ActorName h with
  | (none, h1) => (false, h1)
  | (some i, h1) =>
      (true, (setRotationAt h1 i Rotation).logE ("Set rotation of actor: " ++ ActorName))

def UGenActorUtils.SetActorScale (ActorName : String) (Scale : FVector) (h : Host) :
    Bool × Host :=
  match UGenActorUtils.FindActorByName ActorName h with
  | (none, h1) => (false, h1)
  | (some i, h1) =>
      (true, (setScaleAt h1 i Scale).logE ("Set scale of actor: " ++ ActorName))

def errJson (msg : String) : String :=
  "\x7b\"success\": false, \"error\": \"" ++ msg ++ "\"\x7d"

def successJson (GameModePath PawnBlueprintPath : String) : String :=
  "\x7b\"success\": true, \"message\": \"Created game mode " ++ GameModePath ++
    " with pawn " ++ PawnBlueprintPath ++ " and set as scene default\"\x7d"

def UGenActorUtils.CreateGameModeWithPawn (GameModePath PawnBlueprintPath BaseClassName : String)
    (h : Host) : String × Host :=
  if GameModePath = "" ∨ PawnBlueprintPath = "" then
    (errJson "Empty path provided", h.logE "GameModePath or PawnBlueprintPath is empty")
  else if (h.blueprints.find? (fun b => b.bpPath = GameModePath)).isSome then
    (errJson "Game mode already exists", h.logE ("Game mode already exists at " ++ GameModePath))
  else
    let BaseClassToUse := if BaseClassName = "" then "GameModeBase" else BaseClassName
    match h.classes.find? (fun c => c.clsName = BaseClassToUse) with
    | none => (errJson "Invalid base class", h.logE ("Invalid base class " ++ BaseClassToUse))
    | some c =>
      if c.isGameModeBase = false then
        (errJson "Invalid base class", h.logE ("Invalid base class " ++ BaseClassToUse))
      else
        match h.blueprints.find? (fun b => b.bpPath = PawnBlueprintPath) with
        | none =>
            (errJson "Invalid pawn blueprint",
             h.logE ("Invalid pawn blueprint: " ++ PawnBlueprintPath))
        | some PawnBP =>
          match PawnBP.generatedClass with
          | none =>
              (errJson "Invalid pawn blueprint",
               h.logE ("Invalid pawn blueprint: " ++ PawnBlueprintPath))
          | some PawnClass =>
            if PawnBP.isPawnClass = false then
              (errJson "Invalid pawn blueprint",
               h.logE ("Invalid pawn blueprint: " ++ PawnBlueprintPath))
            else
              if h.createAssetSucceeds = false then
                (errJson "Failed to create game mode",
                 h.logE ("Failed to create game mode blueprint at " ++ GameModePath))
              else
                let gmClass := GameModePath ++ "_C"
                let newBP : UBlueprint :=
                  { bpPath := GameModePath,
                    generatedClass := if h.generatedClassOk then some gmClass else none,
                    isPawnClass := false, defaultPawnClass := none,
                    modifiedFlag := false, structurallyModified := false }
                let h1 := ({ h with blueprints := h.blueprints ++ [newBP] }).emit
                  (.createAsset GameModePath)
                if h.generatedClassOk = false then
                  (errJson "No generated class",
                   h1.logE ("Generated class not found for " ++ GameModePath))
                else
                  let h2 :=
                    if h.cdoCastSucceeds then
                      (updBP h1 GameModePath fun b =>
                        { b with defaultPawnClass := some PawnClass }).emit
                        (.setDefaultPawnClass GameModePath PawnClass)
                    else h1
                  let h3 :=
                    if h.gEditorValid then
                      match h2.editorWorld with
                      | some w =>
                        if w.hasCurrentLevel then
                          (((({ h2 with editorWorld := some { w with
                                  defaultGameMode := some gmClass,
                                  settingsDirty := true } }).emit
                              (.setWorldDefaultGameMode gmClass)).emit
                              (.markDirty "WorldSettings")).logE
                            ("Set " ++ GameModePath ++ " as default game mode for current scene"))
                        else h2.logE "No current level found to set game mode"
                      | none => h2.logE "No current world found to set game mode"
                    else h2
                  let h4 := ((updBP h3 GameModePath fun b =>
                      { b with modifiedFlag := true, structurallyModified := true }).emit
                      (.modifyBlueprint GameModePath)).emit
                    (.markStructurallyModified GameModePath)
                  (successJson GameModePath PawnBlueprintPath,
                   h4.logE ("Created game mode " ++ GameModePath ++ " with pawn " ++
                     PawnBlueprintPath))

/-- The operations the module exposes, as one sum type, for statelessness
    statements ranging over arbitrary call histories. -/
inductive MCPOp where
  | spawnBasicShapeOp (shape : String) (loc : FVector) (rot : FRotator) (scale : FVector)
      (label : String)
  | spawnStaticMeshActorOp (path : String) (loc : FVector) (rot : FRotator) (scale : FVector)
      (label : String)
  | spawnActorFromClassOp (cls : String) (loc : FVector) (rot : FRotator) (scale : FVector)
      (label : String)
  | findActorByNameOp (name : String)
  | createMaterialOp (name : String) (color : FLinearColor)
  | setActorMaterialOp (name : String) (mat : Option String)
  | setActorMaterialByPathOp (name path : String)
  | setActorPositionOp (name : String) (v : FVector)
  | setActorRotationOp (name : String) (v : FRotator)
  | setActorScaleOp (name : String) (v : FVector)
  | createGameModeWithPawnOp (gm pawn base : String)
deriving Repr, DecidableEq

inductive OpResult where
  | actorRef (i : Option Nat)
  | matRef (m : Option String)
  | flag (b : Bool)
  | json (s : String)
deriving Repr, DecidableEq

def runOp (op : MCPOp) (h : Host) : OpResult × Host :=
  match op with
  | .spawnBasicShapeOp s l r sc lb =>
      let res := UGenActorUtils.SpawnBasicShape s l r sc lb h
      (.actorRef res.1, res.2)
  | .spawnStaticMeshActorOp p l r sc lb =>
      let res := UGenActorUtils.SpawnStaticMeshActor p l r sc lb h
      (.actorRef res.1, res.2)
  | .spawnActorFromClassOp c l r sc lb =>
      let res := UGenActorUtils.SpawnActorFromClass c l r sc lb h
      (.actorRef res.1, res.2)
  | .findActorByNameOp n =>
      let res := UGenActorUtils.FindActorByName n h
      (.actorRef res.1, res.2)
  | .createMaterialOp n c =>
      let res := UGenActorUtils.CreateMaterial n c h
      (.matRef res.1, res.2)
  | .setActorMaterialOp n m =>
      let res := UGenActorUtils.SetActorMaterial n m h
      (.flag res.1, res.2)
  | .setActorMaterialByPathOp n p =>
      let res := UGenActorUtils.SetActorMaterialByPath n p h
      (.flag res.1, res.2)
  | .setActorPositionOp n v =>
      let res := UGenActorUtils.SetActorPosition n v h
      (.flag res.1, res.2)
  | .setActorRotationOp n v =>
      let res := UGenActorUtils.SetActorRotation n v h
      (.flag res.1, res.2)
  | .setActorScaleOp n v =>
      let res := UGenActorUtils.SetActorScale n v h
      (.flag res.1, res.2)
  | .createGameModeWithPawnOp g p b =>
      let res := UGenActorUtils.CreateGameModeWithPawn g p b h
      (.json res.1, res.2)

def runOps (ops : List MCPOp) (h : Host) : Host :=
  ops.foldl (fun acc op => (runOp op acc).2) h

/-- Classifier of host-API calls that assign a single object field
    (the default-pawn-class and world-settings-game-mode assignments). -/
def isFieldSet : HostEvent → Bool
  | .setDefaultPawnClass _ _ => true
  | .setWorldDefaultGameMode _ => true
  | _ => false

def emptyLevelWorld : WorldState :=
  { actors := [], hasCurrentLevel := true, defaultGameMode := none, settingsDirty := false }

/-- A healthy editor session: an editor world with a current level and all
    host-side operations succeeding; no preexisting assets. -/
def baseHost : Host :=
  { editorWorld := some emptyLevelWorld,
    meshes := [], materials := [], packages := [], blueprints := [], classes := [],
    nextId := 0, exprCount := 0,
    spawnSucceeds := true, spawnedCompValid := true,
    createPackageSucceeds := true, newMaterialSucceeds := true,
    createExpressionSucceeds := true, connectSucceeds := true,
    savePackageSucceeds := true, createAssetSucceeds := true,
    generatedClassOk := true, cdoCastSucceeds := true, gEditorValid := true,
    events := [], log := [] }

/-- Session in which SavePackage fails (for example a read-only target file). -/
def hostSaveFails : Host := { baseHost with savePackageSucceeds := false }

def pawnBP : UBlueprint :=
  { bpPath := "/Game/PawnBP", generatedClass := some "/Game/PawnBP_C",
    isPawnClass := true, defaultPawnClass := none,
    modifiedFlag := false, structurallyModified := false }

def gmBaseCls : UClass :=
  { clsName := "GameModeBase", isGameModeBase := true, isActorClass := true }

/-- Session holding a valid pawn blueprint and the game-mode base class. -/
def hostGameModeReady : Host := { baseHost with blueprints := [pawnBP], classes := [gmBaseCls] }

def gmBP : UBlueprint :=
  { bpPath := "/Game/GM", generatedClass := some "/Game/GM_C",
    isPawnClass := false, defaultPawnClass := none,
    modifiedFlag := false, structurallyModified := false }

/-- Session in which a game-mode blueprint already exists at /Game/GM. -/
def hostGameModeExists : Host := { baseHost with blueprints := [gmBP] }

def cubeComp : StaticMeshComp :=
  { mesh := some "/Engine/BasicShapes/Cube.Cube", materials := [none, none] }

def cubeActor : AActor :=
  { label := "Cube", objectName := "StaticMeshActor_0", location := (0, 0, 0),
    rotation := (0, 0, 0), scale := (1, 1, 1), meshComp := some cubeComp }

def cubeWorld : WorldState :=
  { actors := [cubeActor], hasCurrentLevel := true,
    defaultGameMode := none, settingsDirty := false }

def redMat : UMaterial :=
  { matName := "Red", exprColor := some (1, 0, 0, 1),
    baseColorConnected := true, saved := true }

/-- Session whose world holds one static-mesh actor labelled Cube, and a
    loadable material asset. -/
def hostWithCube : Host :=
  { baseHost with
      editorWorld := some cubeWorld,
      materials := [("/Game/Materials/Red.Red", redMat)] }

theorem logE_editorWorld (h : Host) (s : String) : (h.logE s).editorWorld = h.editorWorld := rfl

theorem logE_events (h : Host) (s : String) : (h.logE s).events = h.events := rfl

theorem logE_packages (h : Host) (s : String) : (h.logE s).packages = h.packages := rfl

theorem logE_materials (h : Host) (s : String) : (h.logE s).materials = h.materials := rfl

theorem logE_exprCount (h : Host) (s : String) : (h.logE s).exprCount = h.exprCount := rfl

theorem logE_blueprints (h : Host) (s : String) : (h.logE s).blueprints = h.blueprints := rfl

theorem logE_log (h : Host) (s : String) : (h.logE s).log = h.log ++ [s] := rfl

theorem emit_editorWorld (h : Host) (e : HostEvent) : (h.emit e).editorWorld = h.editorWorld := rfl

theorem emit_log (h : Host) (e : HostEvent) : (h.emit e).log = h.log := rfl

theorem emit_packages (h : Host) (e : HostEvent) : (h.emit e).packages = h.packages := rfl

theorem emit_materials (h : Host) (e : HostEvent) : (h.emit e).materials = h.materials := rfl

theorem emit_exprCount (h : Host) (e : HostEvent) : (h.emit e).exprCount = h.exprCount := rfl

theorem emit_blueprints (h : Host) (e : HostEvent) : (h.emit e).blueprints = h.blueprints := rfl

theorem emit_events (h : Host) (e : HostEvent) : (h.emit e).events = h.events ++ [e] := rfl

theorem updMat_editorWorld (h : Host) (p : String) (f : UMaterial → UMaterial) :
    (updMat h p f).editorWorld = h.editorWorld := rfl

theorem updMat_packages (h : Host) (p : String) (f : UMaterial → UMaterial) :
    (updMat h p f).packages = h.packages := rfl

theorem updMat_exprCount (h : Host) (p : String) (f : UMaterial → UMaterial) :
    (updMat h p f).exprCount = h.exprCount := rfl

theorem updMat_log (h : Host) (p : String) (f : UMaterial → UMaterial) :
    (updMat h p f).log = h.log := rfl

theorem modifyAt_get (f : α → α) (l : List α) (i j : Nat) :
    (modifyAt f l i)[j]? = if i = j then l[j]?.map f else l[j]? := by
  induction l generalizing i j with
  | nil => cases i <;> cases j <;> simp [modifyAt]
  | cons a t ih =>
    cases i with
    | zero => cases j <;> simp [modifyAt]
    | succ i =>
      cases j with
      | zero => simp [modifyAt]
      | succ j => simpa [modifyAt] using ih i j

theorem modifyAt_length (f : α → α) (l : List α) (i : Nat) :
    (modifyAt f l i).length = l.length := by
  induction l generalizing i with
  | nil => rfl
  | cons a t ih => cases i <;> simp [modifyAt, ih]

theorem firstIdx_eq_none_iff (p : α → Bool) (l : List α) :
    firstIdx p l = none ↔ ∀ a ∈ l, p a = false := by
  induction l with
  | nil => simp [firstIdx]
  | cons a t ih =>
    by_cases hp : p a <;> simp [firstIdx, hp, ih]

theorem firstIdx_some_get (p : α → Bool) (l : List α) (i : Nat)
    (h : firstIdx p l = some i) : ∃ a, l[i]? = some a ∧ p a = true := by
  induction l generalizing i with
  | nil => simp [firstIdx] at h
  | cons a t ih =>
    by_cases hp : p a
    · simp [firstIdx, hp] at h
      subst h
      exact ⟨a, by simp, hp⟩
    · simp [firstIdx, hp] at h
      obtain ⟨j, hj, rfl⟩ := h
      obtain ⟨b, hb, hpb⟩ := ih j hj
      exact ⟨b, by simpa using hb, hpb⟩

theorem eraseIdx_append_length (l : List α) (a : α) :
    (l ++ [a]).eraseIdx l.length = l := by
  induction l with
  | nil => rfl
  | cons x t ih => simpa [List.eraseIdx] using ih


theorem actorAt_logE (h : Host) (s : String) (k : Nat) :
    actorAt (h.logE s) k = actorAt h k := rfl

theorem actorAt_emit (h : Host) (e : HostEvent) (k : Nat) :
    actorAt (h.emit e) k = actorAt h k := rfl

theorem actorAt_updActor (h : Host) (i j : Nat) (f : AActor → AActor) :
    actorAt (h.updActor i f) j = if i = j then (actorAt h j).map f else actorAt h j := by
  rcases hw : h.editorWorld with _ | w
  · unfold Host.updActor
    simp [actorAt, hw]
  · unfold Host.updActor
    simp [actorAt, hw, modifyAt_get]

theorem actorAt_setSlotMatAt (h : Host) (i j k : Nat) (mat : String) :
    actorAt (setSlotMatAt h i j mat) k =
      if i = k then (actorAt h k).map (setSlotFn j mat) else actorAt h k := by
  unfold setSlotMatAt
  rw [actorAt_emit, actorAt_updActor]

theorem actorAt_foldSlots (mat : String) (i : Nat) (js : List Nat) (h : Host) (k : Nat) :
    actorAt (js.foldl (fun acc j => setSlotMatAt acc i j mat) h) k =
      if i = k then
        (actorAt h k).map (fun a => js.foldl (fun b j => setSlotFn j mat b) a)
      else actorAt h k := by
  induction js generalizing h with
  | nil => simp
  | cons j t ih =>
    simp only [List.foldl_cons]
    rw [ih, actorAt_setSlotMatAt]
    by_cases hik : i = k
    · simp [hik, Option.map_map, Function.comp_def]
    · simp [hik]

theorem foldl_setSlotFn (mat : String) (js : List Nat) (a : AActor) :
    js.foldl (fun b j => setSlotFn j mat b) a =
      { a with meshComp := a.meshComp.map (fun c =>
          { c with materials := js.foldl (fun m j => m.set j (some mat)) c.materials }) } := by
  induction js generalizing a with
  | nil =>
    simp only [List.foldl_nil]
    cases a with
    | mk lb objName loc rot sc mc => cases mc <;> rfl
  | cons j t ih =>
    simp only [List.foldl_cons]
    rw [ih]
    cases a with
    | mk lb objName loc rot sc mc => cases mc <;> rfl

theorem foldl_set_get (v : α) (js : List Nat) (l : List α) (k : Nat) :
    (js.foldl (fun m j => m.set j v) l)[k]? =
      if k ∈ js ∧ k < l.length then some v else l[k]? := by
  induction js generalizing l with
  | nil => simp
  | cons j t ih =>
    simp only [List.foldl_cons]
    rw [ih, List.length_set]
    by_cases hkt : k ∈ t
    · by_cases hkl : k < l.length
      · simp [hkt, hkl]
      · have hnone : l[k]? = none := List.getElem?_eq_none (Nat.le_of_not_lt hkl)
        have hnone2 : (l.set j v)[k]? = none := by
          rw [List.getElem?_set]
          by_cases hjk : j = k <;> simp [hjk, hnone, hkl]
        simp [hkt, hkl, hnone, hnone2]
    · by_cases hjk : j = k
      · by_cases hkl : k < l.length
        · have hset : (l.set j v)[k]? = some v := by
            rw [List.getElem?_set]
            simp [hjk, hkl]
          simp [hkt, hjk, hkl, hset]
        · have hnone : l[k]? = none := List.getElem?_eq_none (Nat.le_of_not_lt hkl)
          have hnone2 : (l.set j v)[k]? = none := by
            rw [List.getElem?_set]
            simp [hjk, hkl]
          simp [hkt, hkl, hnone, hnone2]
      · have hset : (l.set j v)[k]? = l[k]? := List.getElem?_set_ne hjk
        have hkj : ¬k = j := fun hc => hjk hc.symm
        simp [hkt, hkj, hset]

theorem findActor_fst (n : String) (h : Host) (w : WorldState) (hw : h.editorWorld = some w) :
    (UGenActorUtils.FindActorByName n h).1 =
      (match firstIdx (fun a => a.label = n) w.actors with
       | some i => some i
       | none => firstIdx (fun a => a.objectName = n) w.actors) := by
  unfold UGenActorUtils.FindActorByName
  simp only [hw]
  rcases h1 : firstIdx (fun a => a.label = n) w.actors with _ | i
  · rcases h2 : firstIdx (fun a => a.objectName = n) w.actors with _ | i <;> simp [h1, h2]
  · simp [h1]

theorem findActor_noworld (n : String) (h : Host) (hw : h.editorWorld = none) :
    UGenActorUtils.FindActorByName n h = (none, h.logE "Failed to get editor world") := by
  unfold UGenActorUtils.FindActorByName
  simp only [hw]

theorem findActor_preserves (n : String) (h : Host) :
    (UGenActorUtils.FindActorByName n h).2.editorWorld = h.editorWorld ∧
    (UGenActorUtils.FindActorByName n h).2.events = h.events := by
  unfold UGenActorUtils.FindActorByName
  rcases hw : h.editorWorld with _ | w
  · simp [hw, Host.logE]
  · rcases h1 : firstIdx (fun a => a.label = n) w.actors with _ | i
    · rcases h2 : firstIdx (fun a => a.objectName = n) w.actors with _ | i
      · simp [hw, h1, h2, Host.logE]
      · simp [hw, h1, h2]
    · simp [hw, h1]

theorem findActor_found_snd (n : String) (h : Host) (i : Nat)
    (hf : (UGenActorUtils.FindActorByName n h).1 = some i) :
    (UGenActorUtils.FindActorByName n h).2 = h := by
  unfold UGenActorUtils.FindActorByName at hf ⊢
  rcases hw : h.editorWorld with _ | w
  · simp only [hw] at hf
    simp at hf
  · simp only [hw] at hf ⊢
    rcases h1 : firstIdx (fun a => a.label = n) w.actors with _ | i2
    · simp only [h1] at hf ⊢
      rcases h2 : firstIdx (fun a => a.objectName = n) w.actors with _ | i2
      · simp only [h2] at hf
        simp at hf
      · simp only [h2]
    · simp only [h1]

theorem findActor_found_actorAt (n : String) (h : Host) (i : Nat)
    (hf : (UGenActorUtils.FindActorByName n h).1 = some i) :
    ∃ a, actorAt h i = some a := by
  rcases hw : h.editorWorld with _ | w
  · rw [(findActor_noworld n h hw)] at hf
    simp at hf
  · rw [findActor_fst n h w hw] at hf
    rcases h1 : firstIdx (fun a => a.label = n) w.actors with _ | i2
    · rw [h1] at hf
      obtain ⟨a, ha, _⟩ := firstIdx_some_get _ _ _ hf
      exact ⟨a, by simp [actorAt, hw, ha]⟩
    · rw [h1] at hf
      simp at hf
      obtain ⟨a, ha, _⟩ := firstIdx_some_get _ _ _ (hf ▸ h1)
      exact ⟨a, by simp [actorAt, hw, ha]⟩

/-- C6: FindActorByName finds an actor by label or engine path: when some
    actor in the current editor world has a label equal to the given name it
    returns such an actor (the label search is tried first); only when no
    label matches does it fall back to the engine-path object lookup; and it
    returns null exactly when neither the label search nor the path lookup
    finds an actor, or no editor world exists. -/
theorem findActorByName_spec (ActorName : String) (h : Host) :
    (h.editorWorld = none → (UGenActorUtils.FindActorByName ActorName h).1 = none) ∧
    (∀ w, h.editorWorld = some w →
      ((∃ a ∈ w.actors, a.label = ActorName) →
        ∃ i a, (UGenActorUtils.FindActorByName ActorName h).1 = some i ∧
          w.actors[i]? = some a ∧ a.label = ActorName) ∧
      ((∀ a ∈ w.actors, a.label ≠ ActorName) →
        (∃ a ∈ w.actors, a.objectName = ActorName) →
        ∃ i a, (UGenActorUtils.FindActorByName ActorName h).1 = some i ∧
          w.actors[i]? = some a ∧ a.objectName = ActorName) ∧
      ((UGenActorUtils.FindActorByName ActorName h).1 = none ↔
        (∀ a ∈ w.actors, a.label ≠ ActorName) ∧
        (∀ a ∈ w.actors, a.objectName ≠ ActorName))) := by
  constructor
  · intro hw
    rw [findActor_noworld ActorName h hw]
  · intro w hw
    rw [findActor_fst ActorName h w hw]
    refine ⟨?_, ?_, ?_⟩
    · rintro ⟨a, ha, hl⟩
      rcases h1 : firstIdx (fun a => a.label = ActorName) w.actors with _ | i
      · exfalso
        have := (firstIdx_eq_none_iff _ _).mp h1 a ha
        simp [hl] at this
      · obtain ⟨b, hb, hpb⟩ := firstIdx_some_get _ _ _ h1
        exact ⟨i, b, by simp [h1], hb, by simpa using hpb⟩
    · rintro hnol ⟨a, ha, ho⟩
      have h1 : firstIdx (fun a => a.label = ActorName) w.actors = none :=
        (firstIdx_eq_none_iff _ _).mpr (fun b hb => by simpa using hnol b hb)
      rcases h2 : firstIdx (fun a => a.objectName = ActorName) w.actors with _ | i
      · exfalso
        have := (firstIdx_eq_none_iff _ _).mp h2 a ha
        simp [ho] at this
      · obtain ⟨b, hb, hpb⟩ := firstIdx_some_get _ _ _ h2
        exact ⟨i, b, by simp [h1, h2], hb, by simpa using hpb⟩
    · constructor
      · intro hres
        rcases h1 : firstIdx (fun a => a.label = ActorName) w.actors with _ | i
        · rcases h2 : firstIdx (fun a => a.objectName = ActorName) w.actors with _ | i
          · refine ⟨fun a ha => ?_, fun a ha => ?_⟩
            · have := (firstIdx_eq_none_iff _ _).mp h1 a ha
              simpa using this
            · have := (firstIdx_eq_none_iff _ _).mp h2 a ha
              simpa using this
          · rw [h1, h2] at hres
            simp at hres
        · rw [h1] at hres
          simp at hres
      · rintro ⟨hnol, hnoo⟩
        have h1 : firstIdx (fun a => a.label = ActorName) w.actors = none :=
          (firstIdx_eq_none_iff _ _).mpr (fun b hb => by simpa using hnol b hb)
        have h2 : firstIdx (fun a => a.objectName = ActorName) w.actors = none :=
          (firstIdx_eq_none_iff _ _).mpr (fun b hb => by simpa using hnoo b hb)
        simp [h1, h2]

/-- C6 witness: on a session holding one actor labelled Cube, the label
    search finds it at index 0. -/
theorem findActorByName_spec_witness :
    ∃ i a, (UGenActorUtils.FindActorByName "Cube" hostWithCube).1 = some i ∧
      cubeWorld.actors[i]? = some a ∧ a.label = "Cube" :=
  ((findActorByName_spec "Cube" hostWithCube).2 cubeWorld rfl).1
    ⟨cubeActor, by decide, by decide⟩

theorem setActorPosition_reduce_none (n : String) (v : FVector) (h : Host)
    (hf : (UGenActorUtils.FindActorByName n h).1 = none) :
    UGenActorUtils.SetActorPosition n v h = (false, (UGenActorUtils.FindActorByName n h).2) := by
  unfold UGenActorUtils.SetActorPosition
  rcases hfa : UGenActorUtils.FindActorByName n h with ⟨o, h1⟩
  rw [hfa] at hf
  simp at hf
  subst hf
  rfl

theorem setActorPosition_reduce_some (n : String) (v : FVector) (h : Host) (i : Nat)
    (hf : (UGenActorUtils.FindActorByName n h).1 = some i) :
    UGenActorUtils.SetActorPosition n v h =
      (true, (setLocationAt h i v).logE ("Set position of actor: " ++ n)) := by
  have hsnd := findActor_found_snd n h i hf
  unfold UGenActorUtils.SetActorPosition
  rcases hfa : UGenActorUtils.FindActorByName n h with ⟨o, h1⟩
  rw [hfa] at hf hsnd
  simp at hf hsnd
  subst hf
  subst hsnd
  rfl

theorem setActorRotation_reduce_none (n : String) (v : FRotator) (h : Host)
    (hf : (UGenActorUtils.FindActorByName n h).1 = none) :
    UGenActorUtils.SetActorRotation n v h = (false, (UGenActorUtils.FindActorByName n h).2) := by
  unfold UGenActorUtils.SetActorRotation
  rcases hfa : UGenActorUtils.FindActorByName n h with ⟨o, h1⟩
  rw [hfa] at hf
  simp at hf
  subst hf
  rfl

theorem setActorRotation_reduce_some (n : String) (v : FRotator) (h : Host) (i : Nat)
    (hf : (UGenActorUtils.FindActorByName n h).1 = some i) :
    UGenActorUtils.SetActorRotation n v h =
      (true, (setRotationAt h i v).logE ("Set rotation of actor: " ++ n)) := by
  have hsnd := findActor_found_snd n h i hf
  unfold UGenActorUtils.SetActorRotation
  rcases hfa : UGenActorUtils.FindActorByName n h with ⟨o, h1⟩
  rw [hfa] at hf hsnd
  simp at hf hsnd
  subst hf
  subst hsnd
  rfl

theorem setActorScale_reduce_none (n : String) (v : FVector) (h : Host)
    (hf : (UGenActorUtils.FindActorByName n h).1 = none) :
    UGenActorUtils.SetActorScale n v h = (false, (UGenActorUtils.FindActorByName n h).2) := by
  unfold UGenActorUtils.SetActorScale
  rcases hfa : UGenActorUtils.FindActorByName n h with ⟨o, h1⟩
  rw [hfa] at hf
  simp at hf
  subst hf
  rfl

theorem setActorScale_reduce_some (n : String) (v : FVector) (h : Host) (i : Nat)
    (hf : (UGenActorUtils.FindActorByName n h).1 = some i) :
    UGenActorUtils.SetActorScale n v h =
      (true, (setScaleAt h i v).logE ("Set scale of actor: " ++ n)) := by
  have hsnd := findActor_found_snd n h i hf
  unfold UGenActorUtils.SetActorScale
  rcases hfa : UGenActorUtils.FindActorByName n h with ⟨o, h1⟩
  rw [hfa] at hf hsnd
  simp at hf hsnd
  subst hf
  subst hsnd
  rfl

/-- C5: for an actor name the shared lookup helper does not resolve, each of
    SetActorPosition, SetActorRotation and SetActorScale returns false and
    mutates no actor; when the actor is found, each setter changes only its
    own transform component of that actor, leaves the other two transform
    components and all other actors unchanged, and returns true. -/
theorem transformSetters_spec (ActorName : String) (Position : FVector)
    (Rotation : FRotator) (Scale : FVector) (h : Host) :
    ((UGenActorUtils.FindActorByName ActorName h).1 = none →
      (UGenActorUtils.SetActorPosition ActorName Position h).1 = false ∧
      (UGenActorUtils.SetActorPosition ActorName Position h).2.editorWorld = h.editorWorld ∧
      (UGenActorUtils.SetActorRotation ActorName Rotation h).1 = false ∧
      (UGenActorUtils.SetActorRotation ActorName Rotation h).2.editorWorld = h.editorWorld ∧
      (UGenActorUtils.SetActorScale ActorName Scale h).1 = false ∧
      (UGenActorUtils.SetActorScale ActorName Scale h).2.editorWorld = h.editorWorld) ∧
    (∀ i a, (UGenActorUtils.FindActorByName ActorName h).1 = some i →
      actorAt h i = some a →
      (UGenActorUtils.SetActorPosition ActorName Position h).1 = true ∧
      actorAt (UGenActorUtils.SetActorPosition ActorName Position h).2 i =
        some { a with location := Position } ∧
      (∀ k, k ≠ i →
        actorAt (UGenActorUtils.SetActorPosition ActorName Position h).2 k = actorAt h k) ∧
      (UGenActorUtils.SetActorRotation ActorName Rotation h).1 = true ∧
      actorAt (UGenActorUtils.SetActorRotation ActorName Rotation h).2 i =
        some { a with rotation := Rotation } ∧
      (∀ k, k ≠ i →
        actorAt (UGenActorUtils.SetActorRotation ActorName Rotation h).2 k = actorAt h k) ∧
      (UGenActorUtils.SetActorScale ActorName Scale h).1 = true ∧
      actorAt (UGenActorUtils.SetActorScale ActorName Scale h).2 i =
        some { a with scale := Scale } ∧
      (∀ k, k ≠ i →
        actorAt (UGenActorUtils.SetActorScale ActorName Scale h).2 k = actorAt h k)) := by
  constructor
  · intro hf
    have hpre := findActor_preserves ActorName h
    rw [setActorPosition_reduce_none ActorName Position h hf,
        setActorRotation_reduce_none ActorName Rotation h hf,
        setActorScale_reduce_none ActorName Scale h hf]
    exact ⟨rfl, hpre.1, rfl, hpre.1, rfl, hpre.1⟩
  · intro i a hf ha
    rw [setActorPosition_reduce_some ActorName Position h i hf,
        setActorRotation_reduce_some ActorName Rotation h i hf,
        setActorScale_reduce_some ActorName Scale h i hf]
    refine ⟨rfl, ?_, ?_, rfl, ?_, ?_, rfl, ?_, ?_⟩
    · rw [show ((true, (setLocationAt h i Position).logE ("Set position of actor: " ++ ActorName)).2) = (setLocationAt h i Position).logE ("Set position of actor: " ++ ActorName) from rfl]
      rw [actorAt_logE]
      unfold setLocationAt
      rw [actorAt_emit, actorAt_updActor]
      simp [ha]
    · intro k hk
      rw [show ((true, (setLocationAt h i Position).logE ("Set position of actor: " ++ ActorName)).2) = (setLocationAt h i Position).logE ("Set position of actor: " ++ ActorName) from rfl]
      rw [actorAt_logE]
      unfold setLocationAt
      rw [actorAt_emit, actorAt_updActor]
      have hik : ¬i = k := fun hc => hk hc.symm
      simp [hik]
    · rw [show ((true, (setRotationAt h i Rotation).logE ("Set rotation of actor: " ++ ActorName)).2) = (setRotationAt h i Rotation).logE ("Set rotation of actor: " ++ ActorName) from rfl]
      rw [actorAt_logE]
      unfold setRotationAt
      rw [actorAt_emit, actorAt_updActor]
      simp [ha]
    · intro k hk
      rw [show ((true, (setRotationAt h i Rotation).logE ("Set rotation of actor: " ++ ActorName)).2) = (setRotationAt h i Rotation).logE ("Set rotation of actor: " ++ ActorName) from rfl]
      rw [actorAt_logE]
      unfold setRotationAt
      rw [actorAt_emit, actorAt_updActor]
      have hik : ¬i = k := fun hc => hk hc.symm
      simp [hik]
    · rw [show ((true, (setScaleAt h i Scale).logE ("Set scale of actor: " ++ ActorName)).2) = (setScaleAt h i Scale).logE ("Set scale of actor: " ++ ActorName) from rfl]
      rw [actorAt_logE]
      unfold setScaleAt
      rw [actorAt_emit, actorAt_updActor]
      simp [ha]
    · intro k hk
      rw [show ((true, (setScaleAt h i Scale).logE ("Set scale of actor: " ++ ActorName)).2) = (setScaleAt h i Scale).logE ("Set scale of actor: " ++ ActorName) from rfl]
      rw [actorAt_logE]
      unfold setScaleAt
      rw [actorAt_emit, actorAt_updActor]
      have hik : ¬i = k := fun hc => hk hc.symm
      simp [hik]

/-- C5 witness: on the Cube session, SetActorPosition moves the Cube actor
    and only its location changes. -/
theorem transformSetters_spec_witness :
    (UGenActorUtils.SetActorPosition "Cube" (5, 6, 7) hostWithCube).1 = true ∧
    actorAt (UGenActorUtils.SetActorPosition "Cube" (5, 6, 7) hostWithCube).2 0 =
      some { cubeActor with location := (5, 6, 7) } := by
  have hmain := (transformSetters_spec "Cube" (5, 6, 7) (0, 0, 0) (1, 1, 1) hostWithCube).2
    0 cubeActor (by decide) (by decide)
  exact ⟨hmain.1, hmain.2.1⟩

theorem foldl_set_length (v : α) (js : List Nat) (l : List α) :
    (js.foldl (fun m j => m.set j v) l).length = l.length := by
  induction js generalizing l with
  | nil => rfl
  | cons j t ih => simp [ih, List.length_set]

theorem setActorMaterial_reduce_none (n mat : String) (h : Host)
    (hf : (UGenActorUtils.FindActorByName n h).1 = none) :
    UGenActorUtils.SetActorMaterial n (some mat) h =
      (false, (UGenActorUtils.FindActorByName n h).2) := by
  unfold UGenActorUtils.SetActorMaterial
  rcases hfa : UGenActorUtils.FindActorByName n h with ⟨o, h1⟩
  rw [hfa] at hf
  simp at hf
  subst hf
  rfl

theorem setActorMaterial_reduce_nocomp (n mat : String) (h : Host) (i : Nat) (a : AActor)
    (hf : (UGenActorUtils.FindActorByName n h).1 = some i)
    (ha : actorAt h i = some a) (hmc : a.meshComp = none) :
    UGenActorUtils.SetActorMaterial n (some mat) h =
      (false, h.logE ("No static mesh component found on actor: " ++ n)) := by
  have hsnd := findActor_found_snd n h i hf
  unfold UGenActorUtils.SetActorMaterial
  rcases hfa : UGenActorUtils.FindActorByName n h with ⟨o, h1⟩
  rw [hfa] at hf hsnd
  simp at hf hsnd
  subst hf
  subst hsnd
  simp [ha, hmc]

theorem setActorMaterial_reduce_comp (n mat : String) (h : Host) (i : Nat) (a : AActor)
    (comp : StaticMeshComp)
    (hf : (UGenActorUtils.FindActorByName n h).1 = some i)
    (ha : actorAt h i = some a) (hmc : a.meshComp = some comp) :
    UGenActorUtils.SetActorMaterial n (some mat) h =
      (true, ((List.range comp.materials.length).foldl
          (fun acc j => setSlotMatAt acc i j mat) h).logE
        ("Set material for actor: " ++ n)) := by
  have hsnd := findActor_found_snd n h i hf
  unfold UGenActorUtils.SetActorMaterial
  rcases hfa : UGenActorUtils.FindActorByName n h with ⟨o, h1⟩
  rw [hfa] at hf hsnd
  simp at hf hsnd
  subst hf
  subst hsnd
  simp [ha, hmc]

/-- C7: SetActorMaterial with a non-null material, on a found actor holding
    a static mesh component, assigns that material to every material slot of
    the component (each index from 0 to the component material count minus
    one) and returns true; it returns false and assigns nothing exactly when
    the material is null, the actor is not found, or the found actor has no
    static mesh component. -/
theorem setActorMaterial_spec (ActorName mat : String) (h : Host) :
    (UGenActorUtils.SetActorMaterial ActorName none h =
      (false, h.logE "Null material provided")) ∧
    ((UGenActorUtils.FindActorByName ActorName h).1 = none →
      (UGenActorUtils.SetActorMaterial ActorName (some mat) h).1 = false ∧
      (UGenActorUtils.SetActorMaterial ActorName (some mat) h).2.editorWorld = h.editorWorld) ∧
    (∀ i a, (UGenActorUtils.FindActorByName ActorName h).1 = some i →
      actorAt h i = some a →
      (a.meshComp = none →
        (UGenActorUtils.SetActorMaterial ActorName (some mat) h).1 = false ∧
        (UGenActorUtils.SetActorMaterial ActorName (some mat) h).2.editorWorld =
          h.editorWorld) ∧
      (∀ comp, a.meshComp = some comp →
        (UGenActorUtils.SetActorMaterial ActorName (some mat) h).1 = true ∧
        (∃ comp2,
          actorAt (UGenActorUtils.SetActorMaterial ActorName (some mat) h).2 i =
            some { a with meshComp := some comp2 } ∧
          comp2.materials.length = comp.materials.length ∧
          (∀ j, j < comp.materials.length → comp2.materials[j]? = some (some mat))) ∧
        (∀ k, k ≠ i →
          actorAt (UGenActorUtils.SetActorMaterial ActorName (some mat) h).2 k =
            actorAt h k))) := by
  refine ⟨rfl, ?_, ?_⟩
  · intro hf
    rw [setActorMaterial_reduce_none ActorName mat h hf]
    exact ⟨rfl, (findActor_preserves ActorName h).1⟩
  · intro i a hf ha
    constructor
    · intro hmc
      rw [setActorMaterial_reduce_nocomp ActorName mat h i a hf ha hmc]
      exact ⟨rfl, rfl⟩
    · intro comp hmc
      rw [setActorMaterial_reduce_comp ActorName mat h i a comp hf ha hmc]
      refine ⟨rfl, Exists.intro { comp with materials := (List.range comp.materials.length).foldl (fun m j => m.set j (some mat)) comp.materials } ⟨?_, ?_, ?_⟩, ?_⟩
      · rw [show ((true, ((List.range comp.materials.length).foldl
            (fun acc j => setSlotMatAt acc i j mat) h).logE
            ("Set material for actor: " ++ ActorName)).2) =
            ((List.range comp.materials.length).foldl
            (fun acc j => setSlotMatAt acc i j mat) h).logE
            ("Set material for actor: " ++ ActorName) from rfl]
        rw [actorAt_logE, actorAt_foldSlots]
        simp only [if_pos rfl, ha, Option.map_some']
        rw [foldl_setSlotFn, hmc]
        rfl
      · exact foldl_set_length _ _ _
      · intro j hj
        rw [foldl_set_get]
        simp [List.mem_range, hj]
      · intro k hk
        rw [show ((true, ((List.range comp.materials.length).foldl
            (fun acc j => setSlotMatAt acc i j mat) h).logE
            ("Set material for actor: " ++ ActorName)).2) =
            ((List.range comp.materials.length).foldl
            (fun acc j => setSlotMatAt acc i j mat) h).logE
            ("Set material for actor: " ++ ActorName) from rfl]
        rw [actorAt_logE, actorAt_foldSlots]
        have hik : ¬i = k := fun hc => hk hc.symm
        simp [hik]

/-- C7 witness: on the Cube session, assigning a material reference fills
    both slots of the Cube's mesh component. -/
theorem setActorMaterial_spec_witness :
    (UGenActorUtils.SetActorMaterial "Cube" (some "/Game/Materials/Red.Red") hostWithCube).1 =
      true ∧
    (∃ comp2,
      actorAt (UGenActorUtils.SetActorMaterial "Cube"
          (some "/Game/Materials/Red.Red") hostWithCube).2 0 =
        some { cubeActor with meshComp := some comp2 } ∧
      comp2.materials.length = cubeComp.materials.length ∧
      (∀ j, j < cubeComp.materials.length →
        comp2.materials[j]? = some (some "/Game/Materials/Red.Red"))) := by
  have hmain := ((setActorMaterial_spec "Cube" "/Game/Materials/Red.Red" hostWithCube).2.2
    0 cubeActor (by decide) (by decide)).2 cubeComp (by decide)
  exact ⟨hmain.1, hmain.2.1⟩

/-- C4: SetActorMaterialByPath delegates to SetActorMaterial: it returns
    false when no material loads from the path, and otherwise returns
    exactly the result of SetActorMaterial on the same actor name and the
    loaded material reference, with no additional effects of its own. -/
theorem setActorMaterialByPath_spec (ActorName MaterialPath : String) (h : Host) :
    (lookupMat h MaterialPath = none →
      UGenActorUtils.SetActorMaterialByPath ActorName MaterialPath h =
        (false, h.logE ("Failed to load material at path: " ++ MaterialPath))) ∧
    (∀ m, lookupMat h MaterialPath = some m →
      UGenActorUtils.SetActorMaterialByPath ActorName MaterialPath h =
        UGenActorUtils.SetActorMaterial ActorName (some MaterialPath) h) := by
  constructor
  · intro hl
    unfold UGenActorUtils.SetActorMaterialByPath
    rw [hl]
  · intro m hl
    unfold UGenActorUtils.SetActorMaterialByPath
    rw [hl]

/-- C4 witness: on the Cube session the loadable material path delegates to
    the by-reference setter. -/
theorem setActorMaterialByPath_spec_witness :
    UGenActorUtils.SetActorMaterialByPath "Cube" "/Game/Materials/Red.Red" hostWithCube =
      UGenActorUtils.SetActorMaterial "Cube" (some "/Game/Materials/Red.Red") hostWithCube :=
  (setActorMaterialByPath_spec "Cube" "/Game/Materials/Red.Red" hostWithCube).2
    redMat (by decide)

/-- C2 counterexample: with a healthy world but no loadable mesh,
    SpawnBasicShape first performs a mutation (spawning the actor) and then
    undoes it (destroying the actor) before returning its null failure
    sentinel, so the claim that no operation performs and then rolls back a
    mutation is false. -/
theorem spawn_rollback_counterexample :
    (UGenActorUtils.SpawnBasicShape "Cube" (0, 0, 0) (0, 0, 0) (1, 1, 1) "A" baseHost).1 =
      none ∧
    (UGenActorUtils.SpawnBasicShape "Cube" (0, 0, 0) (0, 0, 0) (1, 1, 1) "A" baseHost).2.events =
      [HostEvent.spawnActor 0, HostEvent.destroyActor 0] := by decide

/-- C2 amended: every function aborts and reports a descriptive failure when
    a lookup fails, but SpawnBasicShape and SpawnStaticMeshActor spawn the
    actor before their remaining checks and roll that spawn back by
    destroying the actor when a later step fails: whenever either returns
    the null sentinel, the world's actor list is left exactly as it was. -/
theorem spawn_rollback (ShapeName MeshPath ActorLabel : String) (L S : FVector)
    (R : FRotator) (h : Host) :
    ((UGenActorUtils.SpawnBasicShape ShapeName L R S ActorLabel h).1 = none →
      (UGenActorUtils.SpawnBasicShape ShapeName L R S ActorLabel h).2.editorWorld.map
        WorldState.actors = h.editorWorld.map WorldState.actors) ∧
    ((UGenActorUtils.SpawnStaticMeshActor MeshPath L R S ActorLabel h).1 = none →
      (UGenActorUtils.SpawnStaticMeshActor MeshPath L R S ActorLabel h).2.editorWorld.map
        WorldState.actors = h.editorWorld.map WorldState.actors) := by
  constructor
  · intro hres
    unfold UGenActorUtils.SpawnBasicShape at hres ⊢
    rcases hw : h.editorWorld with _ | w
    · simp [hw, Host.logE]
    · simp only [hw] at hres ⊢
      by_cases hs : h.spawnSucceeds = false
      · simp [hs, Host.logE, hw]
      · simp only [hs, if_false, Bool.false_eq_true] at hres ⊢
        rcases hm : loadMesh (spawnSMActor h w L R).2
            ("/Engine/BasicShapes/" ++ ShapeName ++ "." ++ ShapeName) with _ | slots
        · simp only [hm]
          simp [spawnSMActor, destroyActorAt, Host.logE, Host.emit, eraseIdx_append_length, hw]
        · simp only [hm] at hres
          simp at hres
  · intro hres
    unfold UGenActorUtils.SpawnStaticMeshActor at hres ⊢
    rcases hml : loadMesh h MeshPath with _ | slots
    · simp [hml, Host.logE]
    · simp only [hml] at hres ⊢
      rcases hw : h.editorWorld with _ | w
      · simp [hw, Host.logE]
      · simp only [hw] at hres ⊢
        by_cases hs : h.spawnSucceeds = false
        · simp [hs, Host.logE, hw]
        · simp only [hs, if_false, Bool.false_eq_true] at hres ⊢
          rcases hmc : (actorAt (spawnSMActor h w L R).2 (spawnSMActor h w L R).1).bind
              (fun a => a.meshComp) with _ | comp
          · simp only [hmc]
            simp [spawnSMActor, destroyActorAt, Host.logE, Host.emit,
              eraseIdx_append_length, hw]
          · simp only [hmc] at hres
            simp at hres

/-- C2 witness for the amended theorem: the failed SpawnBasicShape call of
    the counterexample leaves the actor list unchanged. -/
theorem spawn_rollback_witness :
    (UGenActorUtils.SpawnBasicShape "Cube" (0, 0, 0) (0, 0, 0) (1, 1, 1) "A"
        baseHost).2.editorWorld.map WorldState.actors =
      baseHost.editorWorld.map WorldState.actors :=
  (spawn_rollback "Cube" "/Game/Meshes/M.M" "A" (0, 0, 0) (1, 1, 1) (0, 0, 0) baseHost).1
    (by decide)

theorem find_key_map_upd (l : List (String × UMaterial)) (q p : String)
    (f : UMaterial → UMaterial) :
    ((l.map fun e => if e.1 = q then (e.1, f e.2) else e).find? (fun e => e.1 = p)).isSome
      = (l.find? (fun e => e.1 = p)).isSome := by
  induction l with
  | nil => rfl
  | cons e t ih =>
    simp only [List.map_cons]
    have h1 : ((if e.1 = q then (e.1, f e.2) else e) : String × UMaterial).1 = e.1 := by
      by_cases he : e.1 = q <;> simp [he]
    by_cases hp : e.1 = p
    · rw [List.find?_cons_of_pos _ (by simp only [h1]; simp [hp]),
          List.find?_cons_of_pos _ (by simp [hp])]
      rfl
    · rw [List.find?_cons_of_neg _ (by simp only [h1]; simp [hp]),
          List.find?_cons_of_neg _ (by simp [hp])]
      exact ih

theorem lookupMat_updMat_isSome (h : Host) (q p : String) (f : UMaterial → UMaterial) :
    (lookupMat (updMat h q f) p).isSome = (lookupMat h p).isSome := by
  unfold lookupMat updMat
  simp only [Option.isSome_map']
  exact find_key_map_upd h.materials q p f

theorem lookupMat_logE (h : Host) (s p : String) : lookupMat (h.logE s) p = lookupMat h p := rfl

theorem lookupMat_emit (h : Host) (e : HostEvent) (p : String) :
    lookupMat (h.emit e) p = lookupMat h p := rfl

theorem lookupMat_append_self (h : Host) (p : String) (m : UMaterial) :
    (lookupMat { h with materials := h.materials ++ [(p, m)] } p).isSome = true := by
  unfold lookupMat
  simp only [Option.isSome_map']
  rw [List.find?_isSome]
  exact ⟨(p, m), by simp, by simp⟩

theorem createMaterialNew_creates (N : String) (c : FLinearColor) (h : Host)
    (hcp : h.createPackageSucceeds = true) (hnm : h.newMaterialSucceeds = true) :
    (createMaterialNew N c h).1 = some (matPathOf N) ∧
    pkgPathOf N ∈ (createMaterialNew N c h).2.packages ∧
    (lookupMat (createMaterialNew N c h).2 (matPathOf N)).isSome = true := by
  unfold createMaterialNew
  simp only [hcp, hnm, Bool.true_eq_false, if_false]
  refine ⟨trivial, ?_, ?_⟩
  · by_cases he : h.createExpressionSucceeds <;> by_cases hco : h.connectSucceeds <;>
      by_cases hsv : h.savePackageSucceeds <;>
        by_cases hin : pkgPathOf N ∈ h.packages <;>
          simp [he, hco, hsv, hin, Host.logE, Host.emit, updMat]
  · by_cases he : h.createExpressionSucceeds <;> by_cases hco : h.connectSucceeds <;>
      by_cases hsv : h.savePackageSucceeds <;>
        simp [he, hco, hsv, Host.logE, Host.emit, updMat, lookupMat,
          Option.isSome_map', find_key_map_upd, List.find?_isSome]

theorem createMaterial_fastPath (N : String) (c : FLinearColor) (h : Host)
    (hin : pkgPathOf N ∈ h.packages)
    (hsome : (lookupMat h (matPathOf N)).isSome = true) :
    UGenActorUtils.CreateMaterial N c h =
      (some (matPathOf N),
       h.logE ("Material already exists, trying to load it: " ++ N)) := by
  obtain ⟨m, hm⟩ := Option.isSome_iff_exists.mp hsome
  unfold UGenActorUtils.CreateMaterial
  simp only [hin, if_true]
  rw [lookupMat_logE, hm]

theorem createMaterial_fresh (N : String) (c : FLinearColor) (h : Host)
    (hfresh : pkgPathOf N ∉ h.packages) :
    UGenActorUtils.CreateMaterial N c h = createMaterialNew N c h := by
  unfold UGenActorUtils.CreateMaterial
  simp [hfresh]

/-- C9: CreateMaterial is idempotent in the material name.  When the package
    already exists and a material loads from it, the existing material is
    returned and no package, material object or colour expression is
    created; consequently calling CreateMaterial twice with the same name
    (and any colours) returns the material created by the first call and the
    second call creates nothing new. -/
theorem createMaterial_idempotent (N : String) (c c2 : FLinearColor) (h : Host) :
    (pkgPathOf N ∈ h.packages → (lookupMat h (matPathOf N)).isSome = true →
      UGenActorUtils.CreateMaterial N c h =
        (some (matPathOf N),
         h.logE ("Material already exists, trying to load it: " ++ N)) ∧
      (UGenActorUtils.CreateMaterial N c h).2.packages = h.packages ∧
      (UGenActorUtils.CreateMaterial N c h).2.materials = h.materials ∧
      (UGenActorUtils.CreateMaterial N c h).2.exprCount = h.exprCount ∧
      (UGenActorUtils.CreateMaterial N c h).2.events = h.events) ∧
    (pkgPathOf N ∉ h.packages → h.createPackageSucceeds = true →
      h.newMaterialSucceeds = true →
      (UGenActorUtils.CreateMaterial N c h).1 = some (matPathOf N) ∧
      UGenActorUtils.CreateMaterial N c2 (UGenActorUtils.CreateMaterial N c h).2 =
        (some (matPathOf N),
         (UGenActorUtils.CreateMaterial N c h).2.logE
           ("Material already exists, trying to load it: " ++ N)) ∧
      (UGenActorUtils.CreateMaterial N c2
          (UGenActorUtils.CreateMaterial N c h).2).2.packages =
        (UGenActorUtils.CreateMaterial N c h).2.packages ∧
      (UGenActorUtils.CreateMaterial N c2
          (UGenActorUtils.CreateMaterial N c h).2).2.materials =
        (UGenActorUtils.CreateMaterial N c h).2.materials ∧
      (UGenActorUtils.CreateMaterial N c2
          (UGenActorUtils.CreateMaterial N c h).2).2.exprCount =
        (UGenActorUtils.CreateMaterial N c h).2.exprCount) := by
  constructor
  · intro hin hsome
    rw [createMaterial_fastPath N c h hin hsome]
    exact ⟨rfl, rfl, rfl, rfl, rfl⟩
  · intro hfresh hcp hnm
    have hnewfacts := createMaterialNew_creates N c h hcp hnm
    rw [createMaterial_fresh N c h hfresh]
    have hfast := createMaterial_fastPath N c2 (createMaterialNew N c h).2
      hnewfacts.2.1 hnewfacts.2.2
    refine ⟨hnewfacts.1, by rw [hfast], ?_, ?_, ?_⟩ <;> simp [hfast, Host.logE]

/-- C9 witness: creating the Red material twice on a fresh session returns
    the same material object path and the second call creates nothing. -/
theorem createMaterial_idempotent_witness :
    (UGenActorUtils.CreateMaterial "Red" (1, 0, 0, 1) baseHost).1 =
      some (matPathOf "Red") ∧
    UGenActorUtils.CreateMaterial "Red" (0, 1, 0, 1)
        (UGenActorUtils.CreateMaterial "Red" (1, 0, 0, 1) baseHost).2 =
      (some (matPathOf "Red"),
       (UGenActorUtils.CreateMaterial "Red" (1, 0, 0, 1) baseHost).2.logE
         ("Material already exists, trying to load it: " ++ "Red")) := by
  have hmain := (createMaterial_idempotent "Red" (1, 0, 0, 1) (0, 1, 0, 1) baseHost).2
    (by decide) rfl rfl
  exact ⟨hmain.1, hmain.2.1⟩

/-- C1 counterexample: in a session where saving the package to disk fails,
    CreateMaterial logs the save failure yet still returns a non-null
    material, so a failing fallible step does not force a null sentinel. -/
theorem createMaterial_error_policy_counterexample :
    hostSaveFails.savePackageSucceeds = false ∧
    (UGenActorUtils.CreateMaterial "Red" (1, 0, 0, 1) hostSaveFails).1 ≠ none ∧
    ("Failed to save material: " ++ "Red") ∈
      (UGenActorUtils.CreateMaterial "Red" (1, 0, 0, 1) hostSaveFails).2.log := by decide

/-- C1 amended: every failing lookup or mutation is checked immediately and
    logs a message, and CreateMaterial returns the null sentinel when
    package creation or material-object creation fails; but when connecting
    the colour expression to the base colour or saving the package fails it
    only logs an error and still returns the non-null material, so a
    non-sentinel return guarantees package and material creation succeeded
    while saying nothing about the connect and save steps. -/
theorem createMaterial_error_policy (N : String) (c : FLinearColor) (h : Host)
    (hfresh : pkgPathOf N ∉ h.packages) :
    (h.createPackageSucceeds = false →
      UGenActorUtils.CreateMaterial N c h =
        (none, h.logE ("Failed to create package for material: " ++ N))) ∧
    (h.createPackageSucceeds = true → h.newMaterialSucceeds = false →
      (UGenActorUtils.CreateMaterial N c h).1 = none ∧
      ("Failed to create material: " ++ N) ∈
        (UGenActorUtils.CreateMaterial N c h).2.log) ∧
    (h.createPackageSucceeds = true → h.newMaterialSucceeds = true →
      (UGenActorUtils.CreateMaterial N c h).1 = some (matPathOf N) ∧
      (h.savePackageSucceeds = false →
        ("Failed to save material: " ++ N) ∈
          (UGenActorUtils.CreateMaterial N c h).2.log) ∧
      (h.createExpressionSucceeds = true → h.connectSucceeds = false →
        "Failed to connect material property" ∈
          (UGenActorUtils.CreateMaterial N c h).2.log)) := by
  rw [createMaterial_fresh N c h hfresh]
  refine ⟨?_, ?_, ?_⟩
  · intro hcp
    unfold createMaterialNew
    simp [hcp]
  · intro hcp hnm
    unfold createMaterialNew
    simp [hcp, hnm, Host.logE, Host.emit]
  · intro hcp hnm
    refine ⟨(createMaterialNew_creates N c h hcp hnm).1, ?_, ?_⟩
    · intro hsv
      unfold createMaterialNew
      by_cases he : h.createExpressionSucceeds <;> by_cases hco : h.connectSucceeds <;>
        simp [hcp, hnm, he, hco, hsv, Host.logE, Host.emit, updMat]
    · intro he hco
      unfold createMaterialNew
      by_cases hsv : h.savePackageSucceeds <;>
        simp [hcp, hnm, he, hco, hsv, Host.logE, Host.emit, updMat]

/-- C1 witness for the amended theorem: on a fresh session with a failing
    save, CreateMaterial still returns the material path and logs the save
    failure. -/
theorem createMaterial_error_policy_witness :
    (UGenActorUtils.CreateMaterial "Red" (1, 0, 0, 1) hostSaveFails).1 =
      some (matPathOf "Red") ∧
    ("Failed to save material: " ++ "Red") ∈
      (UGenActorUtils.CreateMaterial "Red" (1, 0, 0, 1) hostSaveFails).2.log := by
  have hmain := (createMaterial_error_policy "Red" (1, 0, 0, 1) hostSaveFails
    (by decide)).2.2 rfl rfl
  exact ⟨hmain.1, hmain.2.1 rfl⟩

theorem map_id_of_miss (l : List UBlueprint) (gm : String)
    (F : UBlueprint → UBlueprint) (hF : ∀ b, ¬b.bpPath = gm → F b = b)
    (hnone : ∀ b ∈ l, ¬b.bpPath = gm) : l.map F = l := by
  have h1 : l.map F = l.map id := List.map_congr_left (fun b hb => hF b (hnone b hb))
  rw [h1, List.map_id]

/-- C3 counterexample: on a ready session a successful CreateGameModeWithPawn
    run performs two single-field assignments (the default pawn class on the
    class default object and the world settings' default game mode), not
    exactly one. -/
theorem gameMode_one_field_counterexample :
    (UGenActorUtils.CreateGameModeWithPawn "/Game/GM" "/Game/PawnBP" ""
        hostGameModeReady).1 = successJson "/Game/GM" "/Game/PawnBP" ∧
    ((UGenActorUtils.CreateGameModeWithPawn "/Game/GM" "/Game/PawnBP" ""
        hostGameModeReady).2.events.filter isFieldSet).length = 2 := by decide

/-- C3 amended: CreateGameModeWithPawn runs its guard clauses and then a
    straight-line success path that creates the blueprint asset, sets the
    default pawn class on the new game mode's class default object, also
    sets the current level's world settings' default game mode and marks the
    world settings dirty when an editor world with a current level exists,
    marks the blueprint modified, and returns a success JSON. -/
theorem createGameMode_spec (gm pawn base : String) (h : Host) (cls : UClass)
    (pbp : UBlueprint) (PawnClass : String) (w : WorldState)
    (hgm : ¬gm = "") (hp : ¬pawn = "")
    (hnew : h.blueprints.find? (fun b => b.bpPath = gm) = none)
    (hcls : h.classes.find?
      (fun cl => cl.clsName = (if base = "" then "GameModeBase" else base)) = some cls)
    (hgmb : cls.isGameModeBase = true)
    (hpbp : h.blueprints.find? (fun b => b.bpPath = pawn) = some pbp)
    (hgen : pbp.generatedClass = some PawnClass)
    (hpawn : pbp.isPawnClass = true)
    (hca : h.createAssetSucceeds = true)
    (hgc : h.generatedClassOk = true)
    (hcdo : h.cdoCastSucceeds = true)
    (hge : h.gEditorValid = true)
    (hw : h.editorWorld = some w)
    (hlvl : w.hasCurrentLevel = true) :
    (UGenActorUtils.CreateGameModeWithPawn gm pawn base h).1 = successJson gm pawn ∧
    (UGenActorUtils.CreateGameModeWithPawn gm pawn base h).2.editorWorld =
      some { w with defaultGameMode := some (gm ++ "_C"), settingsDirty := true } ∧
    (∃ b : UBlueprint,
      (UGenActorUtils.CreateGameModeWithPawn gm pawn base h).2.blueprints =
        h.blueprints ++ [b] ∧
      b.bpPath = gm ∧ b.generatedClass = some (gm ++ "_C") ∧
      b.defaultPawnClass = some PawnClass ∧
      b.modifiedFlag = true ∧ b.structurallyModified = true) ∧
    (UGenActorUtils.CreateGameModeWithPawn gm pawn base h).2.events =
      h.events ++ [HostEvent.createAsset gm, HostEvent.setDefaultPawnClass gm PawnClass,
        HostEvent.setWorldDefaultGameMode (gm ++ "_C"), HostEvent.markDirty "WorldSettings",
        HostEvent.modifyBlueprint gm, HostEvent.markStructurallyModified gm] := by
  have hfresh : ∀ b ∈ h.blueprints, ¬b.bpPath = gm := by
    intro b hb
    have := List.find?_eq_none.mp hnew b hb
    simpa using this
  refine ⟨?_, ?_, ?_, ?_⟩
  · unfold UGenActorUtils.CreateGameModeWithPawn
    simp [hgm, hp, hnew, hcls, hgmb, hpbp, hgen, hpawn, hca, hgc, hcdo, hge, hw, hlvl,
      Host.emit, Host.logE, updBP]
  · unfold UGenActorUtils.CreateGameModeWithPawn
    simp [hgm, hp, hnew, hcls, hgmb, hpbp, hgen, hpawn, hca, hgc, hcdo, hge, hw, hlvl,
      Host.emit, Host.logE, updBP]
  · unfold UGenActorUtils.CreateGameModeWithPawn
    simp [hgm, hp, hnew, hcls, hgmb, hpbp, hgen, hpawn, hca, hgc, hcdo, hge, hw, hlvl,
      Host.emit, Host.logE, updBP]
    refine ⟨{ bpPath := gm, generatedClass := some (gm ++ "_C"), isPawnClass := false, defaultPawnClass := some PawnClass, modifiedFlag := true, structurallyModified := true }, ?_, rfl, rfl, rfl, rfl, rfl⟩
    congr 1
    apply map_id_of_miss h.blueprints gm _ ?_ hfresh
    intro b hb
    simp [hb]
  · unfold UGenActorUtils.CreateGameModeWithPawn
    simp [hgm, hp, hnew, hcls, hgmb, hpbp, hgen, hpawn, hca, hgc, hcdo, hge, hw, hlvl,
      Host.emit, Host.logE, updBP]

/-- C3 witness: the amended claim at a concrete ready session. -/
theorem createGameMode_spec_witness :
    (UGenActorUtils.CreateGameModeWithPawn "/Game/GM" "/Game/PawnBP" ""
        hostGameModeReady).1 = successJson "/Game/GM" "/Game/PawnBP" :=
  (createGameMode_spec "/Game/GM" "/Game/PawnBP" "" hostGameModeReady gmBaseCls pawnBP
    "/Game/PawnBP_C" emptyLevelWorld (by decide) (by decide) (by decide) (by decide)
    (by decide) (by decide) (by decide) (by decide) (by decide) (by decide) (by decide)
    (by decide) (by decide) (by decide)).1

/-- C10 counterexample: a blueprint already loads at /Game/GM, yet with an
    empty pawn path the call returns the empty-path sentinel rather than the
    already-exists sentinel, because the empty-path guard runs first. -/
theorem createGameMode_no_overwrite_counterexample :
    (∃ b ∈ hostGameModeExists.blueprints, b.bpPath = "/Game/GM") ∧
    (UGenActorUtils.CreateGameModeWithPawn "/Game/GM" "" "" hostGameModeExists).1 ≠
      errJson "Game mode already exists" ∧
    (UGenActorUtils.CreateGameModeWithPawn "/Game/GM" "" "" hostGameModeExists).1 =
      errJson "Empty path provided" := by decide

/-- C10 amended: whenever both paths are non-empty and a blueprint already
    loads at the game-mode path, CreateGameModeWithPawn returns the
    already-exists error JSON and performs no asset creation, no
    default-pawn assignment and no world-settings mutation. -/
theorem createGameMode_no_overwrite (gm pawn base : String) (h : Host)
    (hgm : ¬gm = "") (hp : ¬pawn = "")
    (hex : (h.blueprints.find? (fun b => b.bpPath = gm)).isSome = true) :
    UGenActorUtils.CreateGameModeWithPawn gm pawn base h =
      (errJson "Game mode already exists",
       h.logE ("Game mode already exists at " ++ gm)) ∧
    (UGenActorUtils.CreateGameModeWithPawn gm pawn base h).2.blueprints = h.blueprints ∧
    (UGenActorUtils.CreateGameModeWithPawn gm pawn base h).2.editorWorld = h.editorWorld ∧
    (UGenActorUtils.CreateGameModeWithPawn gm pawn base h).2.events = h.events := by
  have hmain : UGenActorUtils.CreateGameModeWithPawn gm pawn base h =
      (errJson "Game mode already exists",
       h.logE ("Game mode already exists at " ++ gm)) := by
    unfold UGenActorUtils.CreateGameModeWithPawn
    simp [hgm, hp, hex]
  refine ⟨hmain, ?_, ?_, ?_⟩ <;> simp [hmain, Host.logE]

/-- C10 witness: the amended claim at the concrete session holding a
    blueprint at /Game/GM. -/
theorem createGameMode_no_overwrite_witness :
    UGenActorUtils.CreateGameModeWithPawn "/Game/GM" "/Game/PawnBP" ""
        hostGameModeExists =
      (errJson "Game mode already exists",
       hostGameModeExists.logE ("Game mode already exists at " ++ "/Game/GM")) :=
  (createGameMode_no_overwrite "/Game/GM" "/Game/PawnBP" "" hostGameModeExists
    (by decide) (by decide) (by decide)).1

/-- C8: the module holds no state of its own across calls: an operation's
    result and host effects depend only on the operation and the current
    host state, so any two call histories that lead to the same host state
    give every operation the same result and effects. -/
theorem genActorUtils_stateless (ops1 ops2 : List MCPOp) (op : MCPOp) (h0 : Host)
    (hsame : runOps ops1 h0 = runOps ops2 h0) :
    runOp op (runOps ops1 h0) = runOp op (runOps ops2 h0) := by
  rw [hsame]

/-- C8 witness: a history consisting of a successful lookup leads to the
    same host state as the empty history, so a subsequent spawn behaves
    identically after either. -/
theorem genActorUtils_stateless_witness :
    runOp (MCPOp.spawnBasicShapeOp "Cube" (0, 0, 0) (0, 0, 0) (1, 1, 1) "A")
        (runOps [MCPOp.findActorByNameOp "Cube"] hostWithCube) =
      runOp (MCPOp.spawnBasicShapeOp "Cube" (0, 0, 0) (0, 0, 0) (1, 1, 1) "A")
        (runOps [] hostWithCube) :=
  genActorUtils_stateless [MCPOp.findActorByNameOp "Cube"] []
    (MCPOp.spawnBasicShapeOp "Cube" (0, 0, 0) (0, 0, 0) (1, 1, 1) "A") hostWithCube
    (by decide)
